import Mathlib

/-!
Verification development for the RainMyth rain simulation
(`src/RainMyth/main.cpp`).

The simulation core is embedded shallowly:

* machine floats are modelled by exact rationals `ℚ` for the raindrop
  subsystem (all of whose arithmetic is `+ * /` and comparisons), and by
  real numbers `ℝ` for the actor (`Person`), whose update step divides by a
  Euclidean norm (`std::sqrt`);
* `sf::Vector2u windowSize` is modelled as `ℕ × ℕ`;
* the C++ random distributions drawn in the `Raindrop` constructor become
  explicit spawn parameters together with a `valid` predicate recording the
  support of each `uniform_real_distribution`;
* `static_cast<sf::Uint8>` of the (always non-negative) colour channel
  expressions is truncation toward zero, i.e. `Nat.floor`.
-/

namespace RainMyth

/-- GRAVITY constant from main.cpp: `9.81f * 100` pixels per second squared. -/
def GRAVITY : ℚ := 981

/-- RAINDROP_MIN_SIZE constant: `0.5f`. -/
def RAINDROP_MIN_SIZE : ℚ := 1/2

/-- RAINDROP_MAX_SIZE constant: `1.5f`. -/
def RAINDROP_MAX_SIZE : ℚ := 3/2

/-- RAINDROP_SPAWN_RATE constant: `175.0f`; the spawn loop
`for (int i = 0; i < RAINDROP_SPAWN_RATE; ++i)` runs exactly 175 times. -/
def RAINDROP_SPAWN_RATE : ℕ := 175

/-- WALK_SPEED constant: `50.0f` pixels per second. -/
def WALK_SPEED : ℝ := 50

/-- RUN_SPEED constant: `200.0f` pixels per second. -/
def RUN_SPEED : ℝ := 200

/-- PERSON_WIDTH constant: `40.0f`. -/
def PERSON_WIDTH : ℝ := 40

/-- PERSON_HEIGHT constant: `100.0f`. -/
def PERSON_HEIGHT : ℝ := 100

/-- MAX_WETNESS constant: `1000.0f`, the visual saturation threshold. -/
def MAX_WETNESS : ℝ := 1000

/-- An axis-aligned rectangle, the model of `sf::Rect` (`left`, `top`,
`width`, `height`). -/
structure Rect (α : Type) where
  left : α
  top : α
  width : α
  height : α
deriving Repr, DecidableEq

/-- Cast a rational rectangle to a real one (used when the raindrop bounds,
kept in `ℚ`, meet the person bounds, kept in `ℝ`). -/
def Rect.toR (r : Rect ℚ) : Rect ℝ :=
  ⟨(r.left : ℝ), (r.top : ℝ), (r.width : ℝ), (r.height : ℝ)⟩

/-- Model of `sf::Rect<T>::intersects`: each rectangle is normalised with
`min`/`max` and the intersection must be non-degenerate (strict `<`). -/
def rectIntersects (a b : Rect ℝ) : Prop :=
  max (min a.left (a.left + a.width)) (min b.left (b.left + b.width)) <
      min (max a.left (a.left + a.width)) (max b.left (b.left + b.width)) ∧
  max (min a.top (a.top + a.height)) (min b.top (b.top + b.height)) <
      min (max a.top (a.top + a.height)) (max b.top (b.top + b.height))

/-- A single raindrop: the shape's position, the shape's size vector
(`setSize(sf::Vector2f(size, size * 2.0f))`), and the velocity. -/
structure Raindrop where
  pos : ℚ × ℚ
  shapeSize : ℚ × ℚ
  velocity : ℚ × ℚ
deriving Repr, DecidableEq

/-- The three random draws made by the `Raindrop` constructor:
`xDist(0, windowSize.x)`, `yDist(-100, -50)` and
`sizeDist(RAINDROP_MIN_SIZE, RAINDROP_MAX_SIZE)`. -/
structure SpawnSample where
  x : ℚ
  y : ℚ
  size : ℚ
deriving Repr, DecidableEq

/-- Support of the constructor's distributions: `uniform_real_distribution(a, b)`
produces values in `[a, b)`. -/
def SpawnSample.valid (ws : ℕ × ℕ) (p : SpawnSample) : Prop :=
  0 ≤ p.x ∧ p.x < (ws.1 : ℚ) ∧
  -100 ≤ p.y ∧ p.y < -50 ∧
  RAINDROP_MIN_SIZE ≤ p.size ∧ p.size < RAINDROP_MAX_SIZE

instance (ws : ℕ × ℕ) (p : SpawnSample) : Decidable (p.valid ws) := by
  unfold SpawnSample.valid; infer_instance

/-- The `Raindrop` constructor: shape size `(size, size * 2)`, position the
drawn `(x, y)`, velocity `(0, 0)`. -/
def Raindrop.spawn (p : SpawnSample) : Raindrop :=
  { pos := (p.x, p.y)
    shapeSize := (p.size, p.size * 2)
    velocity := (0, 0) }

/-- `Raindrop::update(deltaTime)`: `velocity.y += GRAVITY * deltaTime;`
then `shape.move(velocity * deltaTime)` — velocity first, then position,
using the already-updated velocity. -/
def Raindrop.update (d : Raindrop) (deltaTime : ℚ) : Raindrop :=
  let v : ℚ × ℚ := (d.velocity.1, d.velocity.2 + GRAVITY * deltaTime)
  { d with velocity := v, pos := (d.pos.1 + v.1 * deltaTime, d.pos.2 + v.2 * deltaTime) }

/-- `Raindrop::isOffScreen`: `shape.getPosition().y > windowSize.y`. -/
def Raindrop.isOffScreen (d : Raindrop) (ws : ℕ × ℕ) : Bool :=
  decide ((ws.2 : ℚ) < d.pos.2)

/-- `Raindrop::isOnPlatty`: the nested hardcoded window test around the two
platform centres `(windowSize.x / 8, windowSize.y - 250)` and
`(windowSize.x * 7 / 8, windowSize.y - 250)`, translated branch by branch. -/
def Raindrop.isOnPlatty (d : Raindrop) (ws : ℕ × ℕ) : Bool :=
  if (ws.1 : ℚ) / 8 - 100 < d.pos.1 ∧ d.pos.1 < (ws.1 : ℚ) / 8 + 100 then
    decide ((ws.2 : ℚ) - 250 - 25 < d.pos.2 ∧ d.pos.2 < (ws.2 : ℚ) - 250 + 25)
  else if (ws.1 : ℚ) * 7 / 8 - 100 < d.pos.1 ∧ d.pos.1 < (ws.1 : ℚ) * 7 / 8 + 100 then
    decide ((ws.2 : ℚ) - 250 - 25 < d.pos.2 ∧ d.pos.2 < (ws.2 : ℚ) - 250 + 25)
  else
    false

/-- `Raindrop::getArea`: `shape.getSize().x * shape.getSize().y`. -/
def Raindrop.getArea (d : Raindrop) : ℚ :=
  d.shapeSize.1 * d.shapeSize.2

/-- `Raindrop::getBounds`: the global bounds of an axis-aligned rectangle
shape with no origin offset. -/
def Raindrop.getBounds (d : Raindrop) : Rect ℚ :=
  ⟨d.pos.1, d.pos.2, d.shapeSize.1, d.shapeSize.2⟩

/-- A sequence of `Raindrop::update` calls with the given per-frame `dt`s. -/
def Raindrop.runUpdates (d : Raindrop) (dts : List ℚ) : Raindrop :=
  dts.foldl Raindrop.update d

/-- The rain system: the live drop collection and the window size captured at
construction. -/
structure RainSystem where
  drops : List Raindrop
  windowSize : ℕ × ℕ

/-- `RainSystem::update(deltaTime)`: integrate every drop, erase the drops
that are off-screen, erase the drops that are on a platform, then push back
exactly `RAINDROP_SPAWN_RATE` freshly constructed drops.  The random draws of
the constructed drops are supplied by `gen`. -/
def RainSystem.update (s : RainSystem) (deltaTime : ℚ) (gen : ℕ → SpawnSample) :
    RainSystem :=
  let moved := s.drops.map (fun d => d.update deltaTime)
  let afterOff := moved.filter (fun d => !(d.isOffScreen s.windowSize))
  let afterPlat := afterOff.filter (fun d => !(d.isOnPlatty s.windowSize))
  { s with drops :=
      afterPlat ++ (List.range RAINDROP_SPAWN_RATE).map (fun i => Raindrop.spawn (gen i)) }

/-- An RGB colour with natural-number channels (the `sf::Uint8` values). -/
structure Color where
  r : ℕ
  g : ℕ
  b : ℕ
deriving Repr, DecidableEq

/-- `Person::updateColor` as a function of `totalWetness`:
`normalizedWetness = min(totalWetness, MAX_WETNESS) / MAX_WETNESS` and each
channel is `static_cast<sf::Uint8>(dry + normalizedWetness * (wet - dry))`,
i.e. the floor of the interpolated value (the expression is non-negative for
every non-negative wetness). -/
noncomputable def colorOfWetness (totalWetness : ℝ) : Color :=
  let normalizedWetness := min totalWetness MAX_WETNESS / MAX_WETNESS
  { r := ⌊(139 : ℝ) + normalizedWetness * (173 - 139)⌋₊
    g := ⌊(69 : ℝ) + normalizedWetness * (216 - 69)⌋₊
    b := ⌊(19 : ℝ) + normalizedWetness * (230 - 19)⌋₊ }

/-- The actor: shape position, movement target and speed, the moving flag,
accumulated wetness, and the shape's current fill colour. -/
structure Person where
  pos : ℝ × ℝ
  targetPosition : ℝ × ℝ
  currentSpeed : ℝ
  totalWetness : ℝ
  isMoving : Bool
  fillColor : Color

/-- `Person::startMove(target, speed)`: only when not already moving, set the
target and speed and raise the moving flag. -/
def Person.startMove (p : Person) (target : ℝ × ℝ) (speed : ℝ) : Person :=
  if p.isMoving then p
  else { p with targetPosition := target, currentSpeed := speed, isMoving := true }

/-- `Person::reset(position)`: zero the wetness, stop moving, teleport to
`position`, and refresh the fill colour (`updateColor` runs with the freshly
zeroed wetness). -/
noncomputable def Person.reset (p : Person) (position : ℝ × ℝ) : Person :=
  { p with totalWetness := 0, isMoving := false, pos := position,
           fillColor := colorOfWetness 0 }

open Classical in
/-- `Person::update(deltaTime)`: when moving, compute the direction to the
target and its Euclidean length; below the 5-unit threshold snap onto the
target and stop, otherwise move by the normalised direction times speed times
`deltaTime`. -/
noncomputable def Person.update (p : Person) (deltaTime : ℝ) : Person :=
  if p.isMoving then
    let direction := (p.targetPosition.1 - p.pos.1, p.targetPosition.2 - p.pos.2)
    let distance := Real.sqrt (direction.1 * direction.1 + direction.2 * direction.2)
    if distance < 5 then
      { p with isMoving := false, pos := p.targetPosition }
    else
      { p with pos := (p.pos.1 + direction.1 / distance * p.currentSpeed * deltaTime,
                       p.pos.2 + direction.2 / distance * p.currentSpeed * deltaTime) }
  else p

/-- `Person::addWetness(area)`: `totalWetness += area`. -/
noncomputable def Person.addWetness (p : Person) (area : ℝ) : Person :=
  { p with totalWetness := p.totalWetness + area }

/-- `Person::getBounds`: global bounds of the person's rectangle shape, whose
origin is `(PERSON_WIDTH / 2, PERSON_HEIGHT / 2)`. -/
noncomputable def Person.getBounds (p : Person) : Rect ℝ :=
  ⟨p.pos.1 - PERSON_WIDTH / 2, p.pos.2 - PERSON_HEIGHT / 2, PERSON_WIDTH, PERSON_HEIGHT⟩

/-- Global bounds of `startPlatform`: size `(200, 50)`, origin `(100, 25)`,
position `(windowSize.x / 8, windowSize.y - 250)`. -/
noncomputable def startPlatformBounds (ws : ℕ × ℕ) : Rect ℝ :=
  ⟨(ws.1 : ℝ) / 8 - 100, (ws.2 : ℝ) - 250 - 25, 200, 50⟩

/-- Global bounds of `endPlatform`: size `(200, 50)`, origin `(100, 25)`,
position `(windowSize.x * 7 / 8, windowSize.y - 250)`. -/
noncomputable def endPlatformBounds (ws : ℕ × ℕ) : Rect ℝ :=
  ⟨(ws.1 : ℝ) * 7 / 8 - 100, (ws.2 : ℝ) - 250 - 25, 200, 50⟩

open Classical in
/-- The collision loop of the frame driver: `personBounds` is captured once,
then every live drop whose bounds intersect it contributes its area through
`addWetness`. -/
noncomputable def collide (p : Person) (drops : List Raindrop) : Person :=
  let personBounds := p.getBounds
  drops.foldl
    (fun q d =>
      if rectIntersects personBounds (Rect.toR d.getBounds) then
        q.addWetness (d.getArea : ℝ)
      else q)
    p

open Classical in
/-- The frame driver's wetness pass: the collision loop followed by the
person-under-platform check, whose body is empty (the branch is dead code in
`main`). -/
noncomputable def frameCollisionPass (p : Person) (drops : List Raindrop) (ws : ℕ × ℕ) :
    Person :=
  let personBounds := p.getBounds
  let afterRain := collide p drops
  if rectIntersects (startPlatformBounds ws) personBounds ∨
      rectIntersects (endPlatformBounds ws) personBounds then
    afterRain
  else
    afterRain

/-- Platform-window predicate written from the specification's words: the
drop's x is within ±100 of `viewportWidth / 8` or of `viewportWidth * 7 / 8`,
and simultaneously its y is within ±25 of `viewportHeight - 250` (strictly,
matching the strict comparisons of the window test). -/
def specPlatformWindow (d : Raindrop) (ws : ℕ × ℕ) : Prop :=
  (|d.pos.1 - (ws.1 : ℚ) / 8| < 100 ∨ |d.pos.1 - (ws.1 : ℚ) * 7 / 8| < 100) ∧
  |d.pos.2 - ((ws.2 : ℚ) - 250)| < 25

/-! ## Helper lemmas -/

/-- Floor of a real number pinned between consecutive naturals. -/
lemma natFloor_real_eq (x : ℝ) (n : ℕ) (h1 : (n : ℝ) ≤ x) (h2 : x < n + 1) :
    ⌊x⌋₊ = n :=
  (Nat.floor_eq_iff (le_trans (Nat.cast_nonneg n) h1)).mpr ⟨h1, h2⟩

/-- Dry wetness gives the exact brown colour. -/
lemma colorOfWetness_zero : colorOfWetness 0 = ⟨139, 69, 19⟩ := by
  simp only [colorOfWetness, MAX_WETNESS, Color.mk.injEq]
  rw [min_eq_left (by norm_num : (0:ℝ) ≤ 1000)]
  refine ⟨?_, ?_, ?_⟩ <;> (apply natFloor_real_eq <;> norm_num)

/-- Saturated wetness gives the exact light-blue colour. -/
lemma colorOfWetness_sat (w : ℝ) (hw : MAX_WETNESS ≤ w) :
    colorOfWetness w = ⟨173, 216, 230⟩ := by
  simp only [colorOfWetness, MAX_WETNESS, Color.mk.injEq]
  rw [min_eq_right (by simpa [MAX_WETNESS] using hw)]
  refine ⟨?_, ?_, ?_⟩ <;> (apply natFloor_real_eq <;> norm_num)

/-- Half of the saturation threshold gives the truncated channel midpoints. -/
lemma colorOfWetness_half : colorOfWetness (MAX_WETNESS / 2) = ⟨156, 142, 124⟩ := by
  simp only [colorOfWetness, MAX_WETNESS, Color.mk.injEq]
  rw [min_eq_left (by norm_num : (1000:ℝ)/2 ≤ 1000)]
  refine ⟨?_, ?_, ?_⟩ <;> (apply natFloor_real_eq <;> norm_num)

/-! ## Claims -/

/-- C2, counterexample to the claim as stated: at `wetness = MAX_WETNESS / 2`
the green channel is 142, which is not the exact midpoint of the dry green 69
and the wet green 216 (their sum 285 is odd, the interpolated value 142.5 is
truncated by the `sf::Uint8` cast). -/
theorem claim_C2_counterexample :
    2 * (colorOfWetness (MAX_WETNESS / 2)).g ≠ 69 + 216 := by
  rw [colorOfWetness_half]
  norm_num

/-- C2 (amended): the display colour interpolates the dry colour (139,69,19)
toward the wet colour (173,216,230) with blend factor
`min(wetness, MAX_WETNESS) / MAX_WETNESS`, each channel truncated to an
integer: wetness 0 yields exactly the dry colour, every wetness ≥ MAX_WETNESS
yields exactly the wet colour, and wetness = MAX_WETNESS / 2 yields the floor
of each channel midpoint — (156, 142, 124), where red 156 is the exact
midpoint while green and blue land on 142.5 and 124.5 and truncate. -/
theorem claim_C2 :
    colorOfWetness 0 = ⟨139, 69, 19⟩ ∧
    (∀ w : ℝ, MAX_WETNESS ≤ w → colorOfWetness w = ⟨173, 216, 230⟩) ∧
    colorOfWetness (MAX_WETNESS / 2) = ⟨156, 142, 124⟩ :=
  ⟨colorOfWetness_zero, colorOfWetness_sat, colorOfWetness_half⟩

/-- C2, witness: a concrete saturated wetness yields the wet colour. -/
theorem claim_C2_witness : colorOfWetness 2000 = ⟨173, 216, 230⟩ :=
  claim_C2.2.1 2000 (by norm_num [MAX_WETNESS])

/-- C8: calling `startMove` while the actor is already moving changes
nothing — the whole state (target, speed, moving flag, position, wetness,
colour) is preserved. -/
theorem claim_C8 (p : Person) (target : ℝ × ℝ) (speed : ℝ)
    (h : p.isMoving = true) : p.startMove target speed = p := by
  simp [Person.startMove, h]

/-- C8, witness at a concrete moving actor. -/
theorem claim_C8_witness :
    Person.startMove ⟨(0, 0), (1, 1), 50, 0, true, ⟨139, 69, 19⟩⟩ (5, 5) 7 =
      ⟨(0, 0), (1, 1), 50, 0, true, ⟨139, 69, 19⟩⟩ :=
  claim_C8 ⟨(0, 0), (1, 1), 50, 0, true, ⟨139, 69, 19⟩⟩ (5, 5) 7 rfl

/-- C9: `reset` is idempotent — the second `reset(P)` reproduces the state of
the first, which has wetness 0, the moving flag cleared and position `P`. -/
theorem claim_C9 (p : Person) (position : ℝ × ℝ) :
    (p.reset position).reset position = p.reset position ∧
    (p.reset position).totalWetness = 0 ∧
    (p.reset position).isMoving = false ∧
    (p.reset position).pos = position :=
  ⟨rfl, rfl, rfl, rfl⟩

/-- C4: for a moving actor whose distance to the target is `dist`: when
`5 ≤ dist`, one `update(dt)` moves the position by exactly
`speed · dt` along the unit vector toward the target and keeps the moving
flag; when `dist < 5` (including target = position), one `update` sets the
position exactly to the target and clears the moving flag. -/
theorem claim_C4 (p : Person) (deltaTime dist : ℝ) (hm : p.isMoving = true)
    (hd : Real.sqrt ((p.targetPosition.1 - p.pos.1) * (p.targetPosition.1 - p.pos.1) +
        (p.targetPosition.2 - p.pos.2) * (p.targetPosition.2 - p.pos.2)) = dist) :
    (5 ≤ dist →
      (p.update deltaTime).pos =
        (p.pos.1 + (p.targetPosition.1 - p.pos.1) / dist * p.currentSpeed * deltaTime,
         p.pos.2 + (p.targetPosition.2 - p.pos.2) / dist * p.currentSpeed * deltaTime) ∧
      (p.update deltaTime).isMoving = true) ∧
    (dist < 5 →
      (p.update deltaTime).pos = p.targetPosition ∧
      (p.update deltaTime).isMoving = false) := by
  constructor
  · intro h5
    have hnot : ¬ (dist < 5) := not_lt.mpr h5
    simp only [Person.update, hm, if_true, hd]
    rw [if_neg hnot]
    exact ⟨rfl, rfl⟩
  · intro h5
    simp only [Person.update, hm, if_true, hd]
    rw [if_pos h5]
    exact ⟨rfl, rfl⟩

/-- C4, witness: actor at the origin moving toward (30, 40) (distance 50) at
speed 10 for 2 seconds lands at (12, 16) and keeps moving. -/
theorem claim_C4_witness :
    (Person.update ⟨(0, 0), (30, 40), 10, 0, true, ⟨139, 69, 19⟩⟩ 2).pos =
      ((12 : ℝ), (16 : ℝ)) ∧
    (Person.update ⟨(0, 0), (30, 40), 10, 0, true, ⟨139, 69, 19⟩⟩ 2).isMoving = true := by
  have hsq : Real.sqrt ((((30, 40) : ℝ × ℝ).1 - ((0, 0) : ℝ × ℝ).1) *
        (((30, 40) : ℝ × ℝ).1 - ((0, 0) : ℝ × ℝ).1) +
        (((30, 40) : ℝ × ℝ).2 - ((0, 0) : ℝ × ℝ).2) *
        (((30, 40) : ℝ × ℝ).2 - ((0, 0) : ℝ × ℝ).2)) = 50 := by
    rw [show (((30, 40) : ℝ × ℝ).1 - ((0, 0) : ℝ × ℝ).1) *
        (((30, 40) : ℝ × ℝ).1 - ((0, 0) : ℝ × ℝ).1) +
        (((30, 40) : ℝ × ℝ).2 - ((0, 0) : ℝ × ℝ).2) *
        (((30, 40) : ℝ × ℝ).2 - ((0, 0) : ℝ × ℝ).2) = 50 ^ 2 by norm_num]
    exact Real.sqrt_sq (by norm_num)
  have h := (claim_C4 ⟨(0, 0), (30, 40), 10, 0, true, ⟨139, 69, 19⟩⟩ 2 50 rfl hsq).1
    (by norm_num)
  refine ⟨?_, h.2⟩
  rw [h.1]
  norm_num

/-- Velocity and y-position of a drop after `N` integration steps with a
fixed `deltaTime`, from an arbitrary starting state. -/
lemma runUpdates_replicate (deltaTime : ℚ) :
    ∀ (N : ℕ) (d : Raindrop),
      (d.runUpdates (List.replicate N deltaTime)).velocity.2 =
        d.velocity.2 + N * GRAVITY * deltaTime ∧
      (d.runUpdates (List.replicate N deltaTime)).pos.2 =
        d.pos.2 + ∑ i ∈ Finset.range N,
          (d.velocity.2 + (i + 1) * GRAVITY * deltaTime) * deltaTime := by
  intro N
  induction N with
  | zero => intro d; simp [Raindrop.runUpdates]
  | succ N ih =>
    intro d
    have hstep : d.runUpdates (List.replicate (N + 1) deltaTime) =
        (d.update deltaTime).runUpdates (List.replicate N deltaTime) := by
      rw [List.replicate_succ]; rfl
    have ihd := ih (d.update deltaTime)
    have hv : (d.update deltaTime).velocity.2 = d.velocity.2 + GRAVITY * deltaTime := rfl
    have hp : (d.update deltaTime).pos.2 =
        d.pos.2 + (d.velocity.2 + GRAVITY * deltaTime) * deltaTime := rfl
    constructor
    · rw [hstep, ihd.1, hv]
      push_cast
      ring
    · rw [hstep, ihd.2, hv, hp]
      rw [Finset.sum_range_succ' (fun i => (d.velocity.2 + (i + 1) * GRAVITY * deltaTime) * deltaTime) N]
      have hcong : ∑ i ∈ Finset.range N,
          (d.velocity.2 + GRAVITY * deltaTime + (i + 1) * GRAVITY * deltaTime) * deltaTime =
          ∑ i ∈ Finset.range N,
          (d.velocity.2 + (i + 1 + 1) * GRAVITY * deltaTime) * deltaTime := by
        refine Finset.sum_congr rfl fun i _ => by ring
      rw [hcong]
      push_cast
      ring

/-- C6: integration updates velocity before position, so after `N` steps of a
fixed `deltaTime` from zero initial y-velocity, the y-velocity is
`N · GRAVITY · deltaTime` and the y-position has advanced by the sum over
steps of (the velocity after that step) times `deltaTime`, exactly over
rational arithmetic. -/
theorem claim_C6 (d : Raindrop) (deltaTime : ℚ) (N : ℕ) (h0 : d.velocity.2 = 0) :
    (d.runUpdates (List.replicate N deltaTime)).velocity.2 = N * GRAVITY * deltaTime ∧
    (d.runUpdates (List.replicate N deltaTime)).pos.2 =
      d.pos.2 + ∑ i ∈ Finset.range N, ((i + 1) * GRAVITY * deltaTime) * deltaTime := by
  have h := runUpdates_replicate deltaTime N d
  rw [h0] at h
  refine ⟨by rw [h.1]; ring, ?_⟩
  rw [h.2]
  congr 1
  exact Finset.sum_congr rfl fun i _ => by ring

/-- C6, witness: a freshly spawned drop (zero velocity, y = −75) after three
unit steps has y-velocity `3 · 981` and y-position `−75 + 981 + 1962 + 2943`. -/
theorem claim_C6_witness :
    ((Raindrop.spawn ⟨0, -75, 1⟩).runUpdates (List.replicate 3 1)).velocity.2 = 2943 ∧
    ((Raindrop.spawn ⟨0, -75, 1⟩).runUpdates (List.replicate 3 1)).pos.2 = 5811 := by
  have h := claim_C6 (Raindrop.spawn ⟨0, -75, 1⟩) 1 3 rfl
  refine ⟨by rw [h.1]; norm_num [GRAVITY], ?_⟩
  rw [h.2]
  norm_num [Finset.sum_range_succ, GRAVITY, Raindrop.spawn]

/-- Every update sequence preserves the shape size and the x-velocity, and
never decreases the y-velocity when every time step is non-negative. -/
lemma runUpdates_invariants :
    ∀ (dts : List ℚ) (d : Raindrop),
      (d.runUpdates dts).shapeSize = d.shapeSize ∧
      (d.runUpdates dts).velocity.1 = d.velocity.1 ∧
      ((∀ t ∈ dts, 0 ≤ t) → d.velocity.2 ≤ (d.runUpdates dts).velocity.2) := by
  intro dts
  induction dts with
  | nil => intro d; exact ⟨rfl, rfl, fun _ => le_refl _⟩
  | cons t ts ih =>
    intro d
    have hstep : d.runUpdates (t :: ts) = (d.update t).runUpdates ts := rfl
    have ihd := ih (d.update t)
    refine ⟨by rw [hstep, ihd.1]; rfl, by rw [hstep, ihd.2.1]; rfl, ?_⟩
    intro hnn
    have ht : (0 : ℚ) ≤ t := hnn t (List.mem_cons_self t ts)
    have h1 : d.velocity.2 ≤ (d.update t).velocity.2 := by
      have : (d.update t).velocity.2 = d.velocity.2 + GRAVITY * t := rfl
      rw [this]
      have : (0 : ℚ) ≤ GRAVITY * t := mul_nonneg (by norm_num [GRAVITY]) ht
      linarith
    have h2 := ihd.2.2 (fun u hu => hnn u (List.mem_cons_of_mem t hu))
    rw [hstep]
    exact le_trans h1 h2

/-- C7: a drop spawned from the constructor's distributions has shape width
in `[RAINDROP_MIN_SIZE, RAINDROP_MAX_SIZE]`, its shape size never changes
under any update sequence, its x-velocity is always 0, and its y-velocity is
monotonically non-decreasing along any update sequence with non-negative time
steps. -/
theorem claim_C7 (sample : SpawnSample) (dts l1 l2 : List ℚ)
    (hsize : RAINDROP_MIN_SIZE ≤ sample.size ∧ sample.size < RAINDROP_MAX_SIZE)
    (hdts : ∀ t ∈ dts, 0 ≤ t) (hsplit : dts = l1 ++ l2) :
    (RAINDROP_MIN_SIZE ≤ ((Raindrop.spawn sample).runUpdates dts).shapeSize.1 ∧
      ((Raindrop.spawn sample).runUpdates dts).shapeSize.1 ≤ RAINDROP_MAX_SIZE) ∧
    ((Raindrop.spawn sample).runUpdates dts).shapeSize = (sample.size, sample.size * 2) ∧
    ((Raindrop.spawn sample).runUpdates dts).velocity.1 = 0 ∧
    ((Raindrop.spawn sample).runUpdates l1).velocity.2 ≤
      ((Raindrop.spawn sample).runUpdates dts).velocity.2 := by
  have h := runUpdates_invariants dts (Raindrop.spawn sample)
  have hsz : ((Raindrop.spawn sample).runUpdates dts).shapeSize =
      (sample.size, sample.size * 2) := h.1
  refine ⟨⟨?_, ?_⟩, hsz, ?_, ?_⟩
  · rw [hsz]; exact hsize.1
  · rw [hsz]; exact le_of_lt hsize.2
  · rw [h.2.1]; rfl
  · have happ : (Raindrop.spawn sample).runUpdates dts =
        ((Raindrop.spawn sample).runUpdates l1).runUpdates l2 := by
      rw [hsplit]
      exact List.foldl_append ..
    rw [happ]
    refine (runUpdates_invariants l2 ((Raindrop.spawn sample).runUpdates l1)).2.2 ?_
    intro u hu
    exact hdts u (by rw [hsplit]; exact List.mem_append_right l1 hu)

/-- C7, witness at a concrete spawn and the split `[1, 2] = [1] ++ [2]`. -/
theorem claim_C7_witness :
    (RAINDROP_MIN_SIZE ≤ ((Raindrop.spawn ⟨0, -75, 1⟩).runUpdates [1, 2]).shapeSize.1 ∧
      ((Raindrop.spawn ⟨0, -75, 1⟩).runUpdates [1, 2]).shapeSize.1 ≤ RAINDROP_MAX_SIZE) ∧
    ((Raindrop.spawn ⟨0, -75, 1⟩).runUpdates [1, 2]).shapeSize = (1, 1 * 2) ∧
    ((Raindrop.spawn ⟨0, -75, 1⟩).runUpdates [1, 2]).velocity.1 = 0 ∧
    ((Raindrop.spawn ⟨0, -75, 1⟩).runUpdates [1]).velocity.2 ≤
      ((Raindrop.spawn ⟨0, -75, 1⟩).runUpdates [1, 2]).velocity.2 :=
  claim_C7 ⟨0, -75, 1⟩ [1, 2] [1] [2]
    (by norm_num [RAINDROP_MIN_SIZE, RAINDROP_MAX_SIZE])
    (by decide) rfl

/-- C10: a spawned drop's shape is `size` wide and `2 · size` tall under any
update sequence, so its area is `2 · size²`; with the constructor's size range
the area lies in `[1/2, 9/2]` and is strictly positive, hence every
`addWetness` call with this area strictly increases the actor's wetness. -/
theorem claim_C10 (sample : SpawnSample) (dts : List ℚ)
    (hsize : RAINDROP_MIN_SIZE ≤ sample.size ∧ sample.size < RAINDROP_MAX_SIZE) :
    ((Raindrop.spawn sample).runUpdates dts).getBounds.width = sample.size ∧
    ((Raindrop.spawn sample).runUpdates dts).getBounds.height = sample.size * 2 ∧
    ((Raindrop.spawn sample).runUpdates dts).getArea = 2 * sample.size ^ 2 ∧
    (1/2 ≤ ((Raindrop.spawn sample).runUpdates dts).getArea ∧
      ((Raindrop.spawn sample).runUpdates dts).getArea ≤ 9/2) ∧
    0 < ((Raindrop.spawn sample).runUpdates dts).getArea ∧
    ∀ p : Person, p.totalWetness <
      (p.addWetness (((Raindrop.spawn sample).runUpdates dts).getArea : ℝ)).totalWetness := by
  have hsz : ((Raindrop.spawn sample).runUpdates dts).shapeSize =
      (sample.size, sample.size * 2) :=
    (runUpdates_invariants dts (Raindrop.spawn sample)).1
  have harea : ((Raindrop.spawn sample).runUpdates dts).getArea = 2 * sample.size ^ 2 := by
    rw [Raindrop.getArea, hsz]
    ring
  have hlo : (1:ℚ)/2 ≤ sample.size := by
    simpa [RAINDROP_MIN_SIZE] using hsize.1
  have hhi : sample.size < (3:ℚ)/2 := by
    simpa [RAINDROP_MAX_SIZE] using hsize.2
  have hbounds : (1:ℚ)/2 ≤ 2 * sample.size ^ 2 ∧ 2 * sample.size ^ 2 ≤ 9/2 :=
    ⟨by nlinarith, by nlinarith⟩
  have hposQ : (0:ℚ) < ((Raindrop.spawn sample).runUpdates dts).getArea := by
    rw [harea]; nlinarith
  refine ⟨by rw [Raindrop.getBounds, hsz], by rw [Raindrop.getBounds, hsz], harea,
    by rw [harea]; exact hbounds, hposQ, ?_⟩
  intro p
  have hposR : (0:ℝ) < (((Raindrop.spawn sample).runUpdates dts).getArea : ℝ) := by
    exact_mod_cast hposQ
  simpa [Person.addWetness] using hposR

/-- C10, witness: a drop of size 1 with no updates has area 2, and wetting a
concrete dry actor with it strictly increases that actor's wetness. -/
theorem claim_C10_witness :
    (⟨(0, 0), (0, 0), 0, 0, false, ⟨139, 69, 19⟩⟩ : Person).totalWetness <
      (Person.addWetness ⟨(0, 0), (0, 0), 0, 0, false, ⟨139, 69, 19⟩⟩
        (((Raindrop.spawn ⟨0, -75, 1⟩).runUpdates []).getArea : ℝ)).totalWetness :=
  (claim_C10 ⟨0, -75, 1⟩ []
    (by norm_num [RAINDROP_MIN_SIZE, RAINDROP_MAX_SIZE])).2.2.2.2.2
    ⟨(0, 0), (0, 0), 0, 0, false, ⟨139, 69, 19⟩⟩

/-- C1: each `RainSystem::update` appends exactly `RAINDROP_SPAWN_RATE = 175`
fresh drops after the two removal passes over the integrated drops; with zero
removals the population grows by exactly 175; and when the fresh drops' y
draws respect the constructor's distribution `[-100, -50)`, every drop in the
live collection after the call has `position.y ≤ viewportHeight` — a drop
whose y exceeds the viewport height is absent. -/
theorem claim_C1 (s : RainSystem) (deltaTime : ℚ) (gen : ℕ → SpawnSample) :
    ((s.update deltaTime gen).drops.length =
      (((s.drops.map (fun d => d.update deltaTime)).filter
          (fun d => !(d.isOffScreen s.windowSize))).filter
          (fun d => !(d.isOnPlatty s.windowSize))).length + RAINDROP_SPAWN_RATE) ∧
    ((∀ d ∈ s.drops.map (fun d => d.update deltaTime),
        d.isOffScreen s.windowSize = false ∧ d.isOnPlatty s.windowSize = false) →
      (s.update deltaTime gen).drops.length = s.drops.length + RAINDROP_SPAWN_RATE) ∧
    ((∀ i, -100 ≤ (gen i).y ∧ (gen i).y < -50) →
      ∀ d ∈ (s.update deltaTime gen).drops, d.pos.2 ≤ (s.windowSize.2 : ℚ)) := by
  refine ⟨?_, ?_, ?_⟩
  · simp [RainSystem.update]
  · intro h
    have h1 : (s.drops.map (fun d => d.update deltaTime)).filter
        (fun d => !(d.isOffScreen s.windowSize)) =
        s.drops.map (fun d => d.update deltaTime) :=
      List.filter_eq_self.mpr fun d hd => by rw [(h d hd).1]; rfl
    have h2 : ((s.drops.map (fun d => d.update deltaTime)).filter
        (fun d => !(d.isOffScreen s.windowSize))).filter
        (fun d => !(d.isOnPlatty s.windowSize)) =
        s.drops.map (fun d => d.update deltaTime) := by
      rw [h1]
      exact List.filter_eq_self.mpr fun d hd => by rw [(h d hd).2]; rfl
    simp only [RainSystem.update]
    rw [h2]
    simp
  · intro hgen d hd
    simp only [RainSystem.update, List.mem_append] at hd
    rcases hd with hd | hd
    · have hd1 := (List.mem_filter.mp hd).1
      have hfalse : d.isOffScreen s.windowSize = false := by
        simpa using (List.mem_filter.mp hd1).2
      have hlt : ¬ ((s.windowSize.2 : ℚ) < d.pos.2) := by
        simpa [Raindrop.isOffScreen] using hfalse
      exact le_of_not_lt hlt
    · rcases List.mem_map.mp hd with ⟨i, _, rfl⟩
      have hy := (hgen i).2
      have hnn : (0 : ℚ) ≤ (s.windowSize.2 : ℚ) := Nat.cast_nonneg _
      have : (Raindrop.spawn (gen i)).pos.2 = (gen i).y := rfl
      rw [this]
      linarith

/-- C1, witness: from an empty system the population after one update is
exactly 175, and the first fresh drop sits above the viewport bottom. -/
theorem claim_C1_witness :
    ((RainSystem.update ⟨[], (800, 600)⟩ 1 (fun _ => ⟨0, -75, 1⟩)).drops.length =
      ([] : List Raindrop).length + RAINDROP_SPAWN_RATE) ∧
    (Raindrop.spawn ⟨0, -75, 1⟩).pos.2 ≤ (((800, 600) : ℕ × ℕ).2 : ℚ) := by
  have h := claim_C1 ⟨[], (800, 600)⟩ 1 (fun _ => ⟨0, -75, 1⟩)
  refine ⟨h.2.1 (by simp), ?_⟩
  refine h.2.2 (fun i => by norm_num) (Raindrop.spawn ⟨0, -75, 1⟩) ?_
  simp only [RainSystem.update, List.map_nil, List.filter_nil, List.nil_append,
    List.mem_map]
  exact ⟨0, by simp [RAINDROP_SPAWN_RATE], trivial⟩

/-- The branch-by-branch window test of `isOnPlatty` agrees with the
specification's description: x strictly within ±100 of either platform
x-centre and y strictly within ±25 of the platform y-centre. -/
lemma isOnPlatty_iff (d : Raindrop) (ws : ℕ × ℕ) :
    d.isOnPlatty ws = true ↔ specPlatformWindow d ws := by
  unfold Raindrop.isOnPlatty specPlatformWindow
  split_ifs with h1 h2
  · simp only [decide_eq_true_eq]
    constructor
    · rintro ⟨hy1, hy2⟩
      exact ⟨Or.inl (abs_lt.mpr ⟨by linarith [h1.1], by linarith [h1.2]⟩),
        abs_lt.mpr ⟨by linarith, by linarith⟩⟩
    · rintro ⟨_, hy⟩
      have hy2 := abs_lt.mp hy
      exact ⟨by linarith [hy2.1], by linarith [hy2.2]⟩
  · simp only [decide_eq_true_eq]
    constructor
    · rintro ⟨hy1, hy2⟩
      exact ⟨Or.inr (abs_lt.mpr ⟨by linarith [h2.1], by linarith [h2.2]⟩),
        abs_lt.mpr ⟨by linarith, by linarith⟩⟩
    · rintro ⟨_, hy⟩
      have hy2 := abs_lt.mp hy
      exact ⟨by linarith [hy2.1], by linarith [hy2.2]⟩
  · constructor
    · intro hfalse
      exact absurd hfalse (by decide)
    · rintro ⟨hx | hx, _⟩
      · have hx2 := abs_lt.mp hx
        exact absurd ⟨by linarith [hx2.1], by linarith [hx2.2]⟩ h1
      · have hx2 := abs_lt.mp hx
        exact absurd ⟨by linarith [hx2.1], by linarith [hx2.2]⟩ h2

/-- C3: `isOnPlatty` holds iff the drop's position lies in the fixed window
around either platform centre (x within ±100 of `viewportWidth / 8` or of
`viewportWidth · 7 / 8`, y within ±25 of `viewportHeight − 250`, strictly),
and — when the fresh spawns follow the constructor's distributions and the
viewport is at least 225 pixels tall, so that a fresh spawn cannot start
inside the window — no drop in the live collection after an update satisfies
the predicate, regardless of off-screen status. -/
theorem claim_C3 (s : RainSystem) (deltaTime : ℚ) (gen : ℕ → SpawnSample) (d : Raindrop) :
    (d.isOnPlatty s.windowSize = true ↔ specPlatformWindow d s.windowSize) ∧
    ((∀ i, (gen i).valid s.windowSize) → 225 ≤ s.windowSize.2 →
      ∀ e ∈ (s.update deltaTime gen).drops, e.isOnPlatty s.windowSize = false) := by
  refine ⟨isOnPlatty_iff d s.windowSize, ?_⟩
  intro hval hh e he
  simp only [RainSystem.update, List.mem_append] at he
  rcases he with he | he
  · simpa using (List.mem_filter.mp he).2
  · rcases List.mem_map.mp he with ⟨i, _, rfl⟩
    cases hcase : (Raindrop.spawn (gen i)).isOnPlatty s.windowSize
    · rfl
    · exfalso
      have hspec := (isOnPlatty_iff (Raindrop.spawn (gen i)) s.windowSize).mp hcase
      have hy := abs_lt.mp hspec.2
      have hys : (Raindrop.spawn (gen i)).pos.2 = (gen i).y := rfl
      rw [hys] at hy
      have hylt : (gen i).y < -50 := (hval i).2.2.2.1
      have hcast : (225 : ℚ) ≤ (s.windowSize.2 : ℚ) := by exact_mod_cast hh
      linarith [hy.1]

/-- C3, witness: a drop at (100, 330) in an 800×600 viewport satisfies the
window characterisation, and a fresh spawn of the updated empty system is not
on a platform. -/
theorem claim_C3_witness :
    (Raindrop.isOnPlatty ⟨(100, 330), (1, 2), (0, 0)⟩ (800, 600) = true ↔
      specPlatformWindow ⟨(100, 330), (1, 2), (0, 0)⟩ (800, 600)) ∧
    Raindrop.isOnPlatty (Raindrop.spawn ⟨0, -75, 1⟩) (800, 600) = false := by
  have h := claim_C3 ⟨[], (800, 600)⟩ 1 (fun _ => ⟨0, -75, 1⟩) ⟨(100, 330), (1, 2), (0, 0)⟩
  refine ⟨h.1, ?_⟩
  refine h.2 (fun i => ?_) (by norm_num) (Raindrop.spawn ⟨0, -75, 1⟩) ?_
  · exact ⟨le_refl 0, by norm_num, by norm_num, by norm_num,
      by norm_num [RAINDROP_MIN_SIZE], by norm_num [RAINDROP_MAX_SIZE]⟩
  · simp only [RainSystem.update, List.map_nil, List.filter_nil, List.nil_append,
      List.mem_map]
    exact ⟨0, by simp [RAINDROP_SPAWN_RATE], trivial⟩

open Classical in
/-- Wetness accounting for the collision fold against a fixed bounds
rectangle: the final wetness is the initial one plus the sum of the areas of
the intersecting drops. -/
lemma collide_foldl_wetness (pb : Rect ℝ) :
    ∀ (drops : List Raindrop) (q : Person),
      (drops.foldl
        (fun q d =>
          if rectIntersects pb (Rect.toR d.getBounds) then
            q.addWetness (d.getArea : ℝ)
          else q) q).totalWetness =
      q.totalWetness +
        (drops.map (fun d =>
          if rectIntersects pb (Rect.toR d.getBounds) then (d.getArea : ℝ) else 0)).sum := by
  intro drops
  induction drops with
  | nil => intro q; simp
  | cons d ds ih =>
    intro q
    rw [List.foldl_cons, List.map_cons, List.sum_cons, ih]
    by_cases hc : rectIntersects pb (Rect.toR d.getBounds)
    · rw [if_pos hc, if_pos hc]
      show (Person.addWetness q _).totalWetness + _ = _
      rw [Person.addWetness]
      ring
    · rw [if_neg hc, if_neg hc]
      ring

open Classical in
/-- C5: in a single collision pass the actor's wetness increases by exactly
the sum of the areas of the drops whose bounds intersect the actor's bounds,
and the frame's person-under-platform check (an empty branch) changes
nothing, so the increase is unaffected by platform overlap. -/
theorem claim_C5 (p : Person) (drops : List Raindrop) (ws : ℕ × ℕ) :
    frameCollisionPass p drops ws = collide p drops ∧
    (frameCollisionPass p drops ws).totalWetness =
      p.totalWetness +
        (drops.map (fun d =>
          if rectIntersects p.getBounds (Rect.toR d.getBounds) then (d.getArea : ℝ)
          else 0)).sum := by
  have hsame : frameCollisionPass p drops ws = collide p drops := by
    unfold frameCollisionPass
    exact ite_self _
  refine ⟨hsame, ?_⟩
  rw [hsame]
  exact collide_foldl_wetness p.getBounds drops p

end RainMyth
